import Mathlib

/-!
Verification of `cadasta/spatial/models.py` (spatial units and their
relationships) via a shallow embedding.

The module defines two persisted entities, `SpatialUnit` and
`SpatialUnitRelationship`, and a custom manager whose `create` method gates
relationship creation on a geometric containment query.  Geometric
containment itself is delegated to the spatial database engine, so it is
embedded here as an oracle parameter `geometry_contains`.
-/

namespace Cadasta

/-- A geometry value.  The source treats geometries abstractly: it only ever
reads `geometry.geom_type` (a string such as "Polygon", "Point",
"LineString") and hands the whole geometry to the database engine's
containment test.  `payload` stands for the coordinate data, which the
Python module never inspects itself. -/
structure Geometry where
  geom_type : String
  payload : Nat
deriving DecidableEq

/-- A `SpatialUnit` row / in-memory instance: random id, owning project,
name, optional geometry, type code (default "PA"), JSON attribute bag
(kept as an uninterpreted string: the module only stores it). -/
structure SpatialUnit where
  id : String
  project : String
  name : String
  geometry : Option Geometry
  type : String
  attributes : String
deriving DecidableEq

/-- A `SpatialUnitRelationship` row: random id, owning project, the two
spatial-unit foreign keys (stored as ids), type code (C / S / M) and
attribute bag. -/
structure SpatialUnitRelationship where
  id : String
  project : String
  su1 : String
  su2 : String
  type : String
  attributes : String
deriving DecidableEq

/-- Database state: the persisted `SpatialUnit` rows and the persisted
`SpatialUnitRelationship` rows. -/
structure DB where
  spatialUnits : List SpatialUnit
  relationships : List SpatialUnitRelationship
deriving DecidableEq

/-- The keyword arguments of a call to the relationship manager's
`create(*args, **kwargs)`.  `su1`, `su2` and `type` are `Option` because the
source reads them with `kwargs[...]`, which raises `KeyError` when the key
is absent; `project` and `attributes` are carried through untouched. -/
structure Kwargs where
  su1 : Option SpatialUnit
  su2 : Option SpatialUnit
  type : Option String
  project : String
  attributes : String
deriving DecidableEq

/-- The errors a call to `create` can surface: a `KeyError` from a missing
keyword argument, the module's own `SpatialUnitRelationshipError`, or a
failure of the underlying persistence layer (e.g. a missing foreign key),
which the module propagates unchanged. -/
inductive PyErr where
  | keyError (key : String)
  | spatialUnitRelationshipError (message : String)
  | integrityError
deriving DecidableEq

/-- The exact literal passed to `SpatialUnitRelationshipError` in the
source: a triple-quoted Python string, so it begins with a newline and each
line carries the 28 spaces of source indentation. -/
def containmentErrorMessage : String :=
  "\n                            That selected location is not\n                            geographically contained\n                            within the parent location\n                            "

/-- The containment query
`SpatialUnit.objects.filter(id=su1.id).filter(geometry__contains=su2.geometry)`:
stored spatial units whose id equals `su1Id` and whose stored geometry
contains `g2` according to the database engine.  A stored row with NULL
geometry never matches a `geometry__contains` lookup. -/
def containmentQuery (db : DB) (geometry_contains : Geometry → Geometry → Bool)
    (su1Id : String) (g2 : Geometry) : List SpatialUnit :=
  (db.spatialUnits.filter (fun u => u.id == su1Id)).filter
    (fun u =>
      match u.geometry with
      | some g1 => geometry_contains g1 g2
      | none => false)

/-- Modelled from the spec: the underlying ORM `super().create(**kwargs)`
(the persistence layer, not part of the sources).  Per §4.2/§7 of the spec
it persists one relationship row built from the keyword arguments, and its
own native failures (missing required foreign keys) are surfaced unchanged.
A missing `type` falls back to the field's empty-string default. -/
def superCreate (db : DB) (newId : String) (kwargs : Kwargs) : Except PyErr DB :=
  match kwargs.su1, kwargs.su2 with
  | some u1, some u2 =>
      Except.ok { db with
        relationships := db.relationships ++
          [{ id := newId, project := kwargs.project, su1 := u1.id, su2 := u2.id,
             type := kwargs.type.getD "", attributes := kwargs.attributes }] }
  | _, _ => Except.error PyErr.integrityError

namespace SpatialUnitRelationshipManager

/-- `SpatialUnitRelationshipManager.create(self, *args, **kwargs)`.
Control flow follows the source line by line, including Python's
short-circuit `and` (so `kwargs['su2']` is only read once
`kwargs['su1'].geometry is not None` held, and `kwargs['type']` only once
both geometries were non-null).  `args` embeds the positional `*args`,
which the source accepts but never uses.  `newId` is the random id the
persistence layer assigns to the new row. -/
def create (db : DB) (geometry_contains : Geometry → Geometry → Bool)
    (newId : String) (args : List Nat) (kwargs : Kwargs) : Except PyErr DB :=
  match kwargs.su1 with
  | none => Except.error (PyErr.keyError "su1")
  | some u1 =>
    match u1.geometry with
    | none => superCreate db newId kwargs
    | some g1 =>
      match kwargs.su2 with
      | none => Except.error (PyErr.keyError "su2")
      | some u2 =>
        match u2.geometry with
        | none => superCreate db newId kwargs
        | some g2 =>
          match kwargs.type with
          | none => Except.error (PyErr.keyError "type")
          | some t =>
            if t == "C" && g1.geom_type == "Polygon" then
              if (containmentQuery db geometry_contains u1.id g2).length ≠ 0 then
                superCreate db newId kwargs
              else
                Except.error
                  (PyErr.spatialUnitRelationshipError containmentErrorMessage)
            else
              superCreate db newId kwargs

end SpatialUnitRelationshipManager

/-- Modelled from the spec: deleting a `SpatialUnit` (the delete operation
itself lives in the framework, not in the sources).  Per the
`on_delete=CASCADE` declarations on both foreign keys and §3 of the spec,
the row is removed together with every relationship row that references it
as `su1` or as `su2`. -/
def deleteSpatialUnit (db : DB) (suId : String) : DB :=
  { spatialUnits := db.spatialUnits.filter (fun u => u.id ≠ suId),
    relationships := db.relationships.filter
      (fun r => r.su1 ≠ suId ∧ r.su2 ≠ suId) }

/-- One entry of `SpatialUnit.TutelaryMeta.actions`: an action name bound
to a description, an error message and the name of the field that scopes
the permission. -/
structure TutelaryAction where
  name : String
  description : String
  error_message : String
  permissions_object : String
deriving DecidableEq

namespace messages

/-- Modelled from the spec: the `messages` module is not among the sources;
its constants are fixed error-message strings consumed by the external
authorization layer.  Only their identity matters here. -/
def SPATIAL_LIST : String := "messages.SPATIAL_LIST"

/-- Modelled from the spec: see `messages.SPATIAL_LIST`. -/
def SPATIAL_ADD : String := "messages.SPATIAL_ADD"

/-- Modelled from the spec: see `messages.SPATIAL_LIST`. -/
def SPATIAL_VIEW : String := "messages.SPATIAL_VIEW"

/-- Modelled from the spec: see `messages.SPATIAL_LIST`. -/
def SPATIAL_EDIT : String := "messages.SPATIAL_EDIT"

/-- Modelled from the spec: see `messages.SPATIAL_LIST`. -/
def SPATIAL_REMOVE : String := "messages.SPATIAL_REMOVE"

end messages

namespace SpatialUnit
namespace TutelaryMeta

/-- `perm_type = 'spatial'` from the source. -/
def perm_type : String := "spatial"

/-- `path_fields = ('project', 'id')` from the source. -/
def path_fields : List String := ["project", "id"]

/-- The `actions` tuple of `SpatialUnit.TutelaryMeta`, transcribed from the
source. -/
def actions : List TutelaryAction :=
  [{ name := "spatial.list",
     description := "List existing spatial units in a project",
     error_message := messages.SPATIAL_LIST,
     permissions_object := "project" },
   { name := "spatial.add",
     description := "Add a spatial units in a project",
     error_message := messages.SPATIAL_ADD,
     permissions_object := "project" },
   { name := "spatial.view",
     description := "View existing spatial unit in project",
     error_message := messages.SPATIAL_VIEW,
     permissions_object := "project" },
   { name := "spatial.update",
     description := "Updated an existing spatial unit in project",
     error_message := messages.SPATIAL_EDIT,
     permissions_object := "project" },
   { name := "spatial.delete",
     description := "Delete spatial unit from a project",
     error_message := messages.SPATIAL_REMOVE,
     permissions_object := "project" }]

end TutelaryMeta
end SpatialUnit

/-- Helper for `messageWords`: split a character list into maximal runs of
non-whitespace characters, carrying the (reversed) current word. -/
def wordsAux : List Char → List Char → List String
  | [], acc => if acc.isEmpty then [] else [String.mk acc.reverse]
  | c :: cs, acc =>
    if c.isWhitespace then
      if acc.isEmpty then wordsAux cs [] else String.mk acc.reverse :: wordsAux cs []
    else
      wordsAux cs (c :: acc)

/-- The words of a string, whitespace-normalized: used to compare the
multi-line containment error message with its one-line rendering. -/
def messageWords (s : String) : List String :=
  wordsAux s.toList []

/-! Concrete fixtures used by witnesses and counterexamples. -/

/-- A polygon geometry. -/
def polyGeom : Geometry := { geom_type := "Polygon", payload := 1 }

/-- A point geometry. -/
def pointGeom : Geometry := { geom_type := "Point", payload := 2 }

/-- A line geometry. -/
def lineGeom : Geometry := { geom_type := "LineString", payload := 3 }

/-- A spatial unit with a polygon geometry. -/
def suPoly : SpatialUnit :=
  { id := "SU1", project := "P1", name := "big parcel",
    geometry := some polyGeom, type := "PA", attributes := "" }

/-- A spatial unit with a point geometry. -/
def suPoint : SpatialUnit :=
  { id := "SU2", project := "P1", name := "well",
    geometry := some pointGeom, type := "PA", attributes := "" }

/-- A spatial unit with a line geometry. -/
def suLine : SpatialUnit :=
  { id := "SU4", project := "P1", name := "road",
    geometry := some lineGeom, type := "PA", attributes := "" }

/-- A spatial unit with NULL geometry (textual location only). -/
def suNoGeom : SpatialUnit :=
  { id := "SU3", project := "P1", name := "somewhere",
    geometry := none, type := "PA", attributes := "" }

/-- A database holding the four example units and no relationships. -/
def dbEx : DB :=
  { spatialUnits := [suPoly, suPoint, suLine, suNoGeom], relationships := [] }

/-- A database in which no row with `suPoly`'s id is stored. -/
def dbNoSU1 : DB :=
  { spatialUnits := [suPoint, suLine], relationships := [] }

/-- A containment oracle that affirms every containment. -/
def gcAll : Geometry → Geometry → Bool := fun _ _ => true

/-- A containment oracle that denies every containment. -/
def gcNone : Geometry → Geometry → Bool := fun _ _ => false

/-- Keyword arguments for a contained-in relationship from `suPoly` to
`suPoint`. -/
def kwCPolyPoint : Kwargs :=
  { su1 := some suPoly, su2 := some suPoint, type := some "C",
    project := "P1", attributes := "" }

/-- Keyword arguments for a split-of relationship from `suPoly` to
`suPoint`. -/
def kwSPolyPoint : Kwargs :=
  { su1 := some suPoly, su2 := some suPoint, type := some "S",
    project := "P1", attributes := "" }

/-- Keyword arguments for a contained-in relationship whose object has
NULL geometry. -/
def kwCPolyNoGeom : Kwargs :=
  { su1 := some suPoly, su2 := some suNoGeom, type := some "C",
    project := "P1", attributes := "" }

/-- Keyword arguments for a contained-in relationship whose subject is a
line. -/
def kwCLinePoint : Kwargs :=
  { su1 := some suLine, su2 := some suPoint, type := some "C",
    project := "P1", attributes := "" }

/-- Keyword arguments with `su2` missing while `su1` has NULL geometry. -/
def kwNoGeomMissingSu2 : Kwargs :=
  { su1 := some suNoGeom, su2 := none, type := some "C",
    project := "P1", attributes := "" }

/-- Keyword arguments with `su2` missing while `su1` has a polygon
geometry. -/
def kwPolyMissingSu2 : Kwargs :=
  { su1 := some suPoly, su2 := none, type := some "C",
    project := "P1", attributes := "" }

/-- A relationship row between `SU1` and `SU2`. -/
def relAB : SpatialUnitRelationship :=
  { id := "R1", project := "P1", su1 := "SU1", su2 := "SU2",
    type := "C", attributes := "" }

/-- A relationship row between `SU2` and `SU3`. -/
def relBC : SpatialUnitRelationship :=
  { id := "R2", project := "P1", su1 := "SU2", su2 := "SU3",
    type := "S", attributes := "" }

/-- A database with two relationship rows. -/
def dbRel : DB :=
  { spatialUnits := [suPoly, suPoint, suNoGeom],
    relationships := [relAB, relBC] }

end Cadasta


namespace Cadasta

/-! Theorems.  Each claim of the specification is settled below; helper
lemmas come first. -/

/-- The underlying ORM create never raises the module's own
`SpatialUnitRelationshipError`: its native failures are distinct. -/
theorem superCreate_ne_relationship_error (db : DB) (newId : String)
    (kw : Kwargs) (m : String) :
    superCreate db newId kw ≠
      Except.error (PyErr.spatialUnitRelationshipError m) := by
  unfold superCreate
  split <;> simp

/-- C1: with type `C`, `su1` an in-memory polygon, `su2` non-null, and
`us` the unique stored row with `su1`'s id (stored geometry `gs`), the
manager's create persists exactly one new relationship row when the engine
affirms that `gs` contains `su2`'s geometry, and raises the containment
error (persisting nothing) when it denies it. -/
theorem c1_contained_in_gate
    (db : DB) (gc : Geometry → Geometry → Bool) (newId : String)
    (args : List Nat) (kw : Kwargs) (u1 u2 : SpatialUnit) (g1 g2 : Geometry)
    (us : SpatialUnit) (gs : Geometry)
    (hsu1 : kw.su1 = some u1) (hsu2 : kw.su2 = some u2)
    (ht : kw.type = some "C")
    (hg1 : u1.geometry = some g1) (hpoly : g1.geom_type = "Polygon")
    (hg2 : u2.geometry = some g2)
    (hstored : db.spatialUnits.filter (fun u => u.id == u1.id) = [us])
    (hgs : us.geometry = some gs) :
    (gc gs g2 = true →
      SpatialUnitRelationshipManager.create db gc newId args kw =
        Except.ok { db with relationships := db.relationships ++
          [{ id := newId, project := kw.project, su1 := u1.id, su2 := u2.id,
             type := "C", attributes := kw.attributes }] }) ∧
    (gc gs g2 = false →
      SpatialUnitRelationshipManager.create db gc newId args kw =
        Except.error
          (PyErr.spatialUnitRelationshipError containmentErrorMessage)) := by
  constructor
  · intro hc
    have hq : containmentQuery db gc u1.id g2 = [us] := by
      simp [containmentQuery, hstored, hgs, hc]
    simp [SpatialUnitRelationshipManager.create, hsu1, hg1, hsu2, hg2, ht,
          hpoly, hq, superCreate]
  · intro hc
    have hq : containmentQuery db gc u1.id g2 = [] := by
      simp [containmentQuery, hstored, hgs, hc]
    simp [SpatialUnitRelationshipManager.create, hsu1, hg1, hsu2, hg2, ht,
          hpoly, hq]

/-- C1 witness: with the all-affirming engine, creating the contained-in
relationship from the stored polygon unit to the point unit persists the
one expected row. -/
theorem c1_contained_in_gate_witness :
    SpatialUnitRelationshipManager.create dbEx gcAll "R1" [] kwCPolyPoint =
      Except.ok { dbEx with relationships := dbEx.relationships ++
        [{ id := "R1", project := "P1", su1 := suPoly.id, su2 := suPoint.id,
           type := "C", attributes := kwCPolyPoint.attributes }] } :=
  (c1_contained_in_gate dbEx gcAll "R1" [] kwCPolyPoint suPoly suPoint
      polyGeom pointGeom suPoly polyGeom rfl rfl rfl rfl rfl rfl
      (by decide) rfl).1 rfl

/-- C2: for a relationship type other than `C`, create performs no
containment check and persists the row for every database state and every
containment oracle. -/
theorem c2_other_types_skip_check
    (db : DB) (gc : Geometry → Geometry → Bool) (newId : String)
    (args : List Nat) (kw : Kwargs) (u1 u2 : SpatialUnit) (t : String)
    (hsu1 : kw.su1 = some u1) (hsu2 : kw.su2 = some u2)
    (ht : kw.type = some t) (hneC : t ≠ "C") :
    SpatialUnitRelationshipManager.create db gc newId args kw =
      Except.ok { db with relationships := db.relationships ++
        [{ id := newId, project := kw.project, su1 := u1.id, su2 := u2.id,
           type := t, attributes := kw.attributes }] } := by
  cases hg1 : u1.geometry with
  | none =>
      simp [SpatialUnitRelationshipManager.create, hsu1, hg1, superCreate,
            hsu2, ht]
  | some g1 =>
      cases hg2 : u2.geometry with
      | none =>
          simp [SpatialUnitRelationshipManager.create, hsu1, hg1, hsu2, hg2,
                superCreate, ht]
      | some g2 =>
          simp [SpatialUnitRelationshipManager.create, hsu1, hg1, hsu2, hg2,
                ht, hneC, superCreate]

/-- C2 witness: a split-of relationship between two units with geometries
is persisted even under the all-denying containment oracle. -/
theorem c2_other_types_skip_check_witness :
    SpatialUnitRelationshipManager.create dbEx gcNone "R2" [] kwSPolyPoint =
      Except.ok { dbEx with relationships := dbEx.relationships ++
        [{ id := "R2", project := "P1", su1 := suPoly.id, su2 := suPoint.id,
           type := "S", attributes := kwSPolyPoint.attributes }] } :=
  c2_other_types_skip_check dbEx gcNone "R2" [] kwSPolyPoint suPoly suPoint
    "S" rfl rfl rfl (by decide)

/-- C3: when either geometry is null, create skips the containment check
and persists the row, for every relationship type including `C`. -/
theorem c3_null_geometry_skips_check
    (db : DB) (gc : Geometry → Geometry → Bool) (newId : String)
    (args : List Nat) (kw : Kwargs) (u1 u2 : SpatialUnit) (t : String)
    (hsu1 : kw.su1 = some u1) (hsu2 : kw.su2 = some u2)
    (ht : kw.type = some t)
    (hnull : u1.geometry = none ∨ u2.geometry = none) :
    SpatialUnitRelationshipManager.create db gc newId args kw =
      Except.ok { db with relationships := db.relationships ++
        [{ id := newId, project := kw.project, su1 := u1.id, su2 := u2.id,
           type := t, attributes := kw.attributes }] } := by
  cases hg1 : u1.geometry with
  | none =>
      simp [SpatialUnitRelationshipManager.create, hsu1, hg1, superCreate,
            hsu2, ht]
  | some g1 =>
      have hg2 : u2.geometry = none := by
        rcases hnull with h | h
        · rw [hg1] at h
          exact absurd h (by simp)
        · exact h
      simp [SpatialUnitRelationshipManager.create, hsu1, hg1, hsu2, hg2,
            superCreate, ht]

/-- C3 witness: a contained-in relationship whose object has NULL geometry
is persisted even under the all-denying containment oracle. -/
theorem c3_null_geometry_skips_check_witness :
    SpatialUnitRelationshipManager.create dbEx gcNone "R3" [] kwCPolyNoGeom =
      Except.ok { dbEx with relationships := dbEx.relationships ++
        [{ id := "R3", project := "P1", su1 := suPoly.id, su2 := suNoGeom.id,
           type := "C", attributes := kwCPolyNoGeom.attributes }] } :=
  c3_null_geometry_skips_check dbEx gcNone "R3" [] kwCPolyNoGeom suPoly
    suNoGeom "C" rfl rfl rfl (Or.inr rfl)

/-- C4: with both geometries non-null but `su1`'s geometry not of type
`Polygon`, create with type `C` skips the containment check and persists
the row. -/
theorem c4_non_polygon_skips_check
    (db : DB) (gc : Geometry → Geometry → Bool) (newId : String)
    (args : List Nat) (kw : Kwargs) (u1 u2 : SpatialUnit) (g1 g2 : Geometry)
    (hsu1 : kw.su1 = some u1) (hsu2 : kw.su2 = some u2)
    (ht : kw.type = some "C")
    (hg1 : u1.geometry = some g1) (hg2 : u2.geometry = some g2)
    (hnp : g1.geom_type ≠ "Polygon") :
    SpatialUnitRelationshipManager.create db gc newId args kw =
      Except.ok { db with relationships := db.relationships ++
        [{ id := newId, project := kw.project, su1 := u1.id, su2 := u2.id,
           type := "C", attributes := kw.attributes }] } := by
  simp [SpatialUnitRelationshipManager.create, hsu1, hg1, hsu2, hg2, ht,
        hnp, superCreate]

/-- C4 witness: a contained-in relationship whose subject is a line is
persisted even under the all-denying containment oracle. -/
theorem c4_non_polygon_skips_check_witness :
    SpatialUnitRelationshipManager.create dbEx gcNone "R4" [] kwCLinePoint =
      Except.ok { dbEx with relationships := dbEx.relationships ++
        [{ id := "R4", project := "P1", su1 := suLine.id, su2 := suPoint.id,
           type := "C", attributes := kwCLinePoint.attributes }] } :=
  c4_non_polygon_skips_check dbEx gcNone "R4" [] kwCLinePoint suLine suPoint
    lineGeom pointGeom rfl rfl rfl rfl rfl (by decide)

/-- C5 counterexample: a failing containment check raises the error with
the source's triple-quoted message, which is not the one-line string the
claim quotes (it starts with a newline, is indented, and begins with
"That"). -/
theorem c5_counterexample :
    SpatialUnitRelationshipManager.create dbEx gcNone "R5" [] kwCPolyPoint =
      Except.error
        (PyErr.spatialUnitRelationshipError containmentErrorMessage) ∧
    containmentErrorMessage ≠
      "selected location is not geographically contained within the parent location" :=
  ⟨rfl, by decide⟩

/-- C5 (amended): every `SpatialUnitRelationshipError` raised by create
carries the one fixed message — the only custom failure mode — and that
message, whitespace-normalized, reads "That selected location is not
geographically contained within the parent location". -/
theorem c5_amended_fixed_message
    (db : DB) (gc : Geometry → Geometry → Bool) (newId : String)
    (args : List Nat) (kw : Kwargs) (m : String)
    (h : SpatialUnitRelationshipManager.create db gc newId args kw =
          Except.error (PyErr.spatialUnitRelationshipError m)) :
    m = containmentErrorMessage ∧
    messageWords containmentErrorMessage =
      ["That", "selected", "location", "is", "not", "geographically",
       "contained", "within", "the", "parent", "location"] := by
  refine ⟨?_, by decide⟩
  unfold SpatialUnitRelationshipManager.create at h
  repeat' split at h
  all_goals try exact absurd h (superCreate_ne_relationship_error db newId kw m)
  all_goals injection h with h1
  all_goals first
    | (injection h1 with h2; exact h2.symm)
    | injection h1

/-- C5 (amended) witness: the failing scenario of the counterexample
instantiates the amended claim at its own message. -/
theorem c5_amended_fixed_message_witness :
    containmentErrorMessage = containmentErrorMessage ∧
    messageWords containmentErrorMessage =
      ["That", "selected", "location", "is", "not", "geographically",
       "contained", "within", "the", "parent", "location"] :=
  c5_amended_fixed_message dbEx gcNone "R5" [] kwCPolyPoint
    containmentErrorMessage rfl

/-- C6: cascade delete of a spatial unit removes exactly the relationship
rows referencing it: afterwards no relationship names the deleted id as
`su1` or `su2`, every surviving relationship already existed, every
relationship referencing neither endpoint survives, and the unit itself is
gone. -/
theorem c6_cascade_delete (db : DB) (suId : String) :
    (∀ r ∈ (deleteSpatialUnit db suId).relationships,
        r.su1 ≠ suId ∧ r.su2 ≠ suId ∧ r ∈ db.relationships) ∧
    (∀ r ∈ db.relationships, r.su1 ≠ suId → r.su2 ≠ suId →
        r ∈ (deleteSpatialUnit db suId).relationships) ∧
    (∀ u ∈ (deleteSpatialUnit db suId).spatialUnits, u.id ≠ suId) := by
  refine ⟨fun r hr => ?_, fun r hr h1 h2 => ?_, fun u hu => ?_⟩
  · simp only [deleteSpatialUnit, List.mem_filter, decide_eq_true_eq] at hr
    exact ⟨hr.2.1, hr.2.2, hr.1⟩
  · simp only [deleteSpatialUnit, List.mem_filter, decide_eq_true_eq]
    exact ⟨hr, h1, h2⟩
  · simp only [deleteSpatialUnit, List.mem_filter, decide_eq_true_eq] at hu
    exact hu.2

/-- C6 witness: deleting `SU1` from the two-relationship database keeps the
`SU2`-`SU3` row, which references `SU1` on neither side. -/
theorem c6_cascade_delete_witness :
    relBC.su1 ≠ "SU1" ∧ relBC.su2 ≠ "SU1" ∧ relBC ∈ dbRel.relationships :=
  (c6_cascade_delete dbRel "SU1").1 relBC (by decide)

/-- C7: `SpatialUnit.TutelaryMeta` declares exactly the five permission
actions `spatial.list`, `spatial.add`, `spatial.view`, `spatial.update`,
`spatial.delete`, each bound to a non-empty description, a non-empty error
message, and the owning project as its permission-scope object. -/
theorem c7_permission_actions :
    SpatialUnit.TutelaryMeta.actions.map TutelaryAction.name =
      ["spatial.list", "spatial.add", "spatial.view", "spatial.update",
       "spatial.delete"] ∧
    SpatialUnit.TutelaryMeta.actions.length = 5 ∧
    SpatialUnit.TutelaryMeta.actions.all
      (fun a => a.permissions_object == "project" &&
                a.description != "" && a.error_message != "") = true := by
  decide

/-- C8: when no stored spatial unit carries `su1`'s id, a type-`C` call
with an in-memory polygon subject and non-null object geometry always
raises the containment error, whatever the containment oracle says about
the in-memory geometries: the check consults only stored rows. -/
theorem c8_checks_stored_rows_only
    (db : DB) (gc : Geometry → Geometry → Bool) (newId : String)
    (args : List Nat) (kw : Kwargs) (u1 u2 : SpatialUnit) (g1 g2 : Geometry)
    (hsu1 : kw.su1 = some u1) (hsu2 : kw.su2 = some u2)
    (ht : kw.type = some "C")
    (hg1 : u1.geometry = some g1) (hpoly : g1.geom_type = "Polygon")
    (hg2 : u2.geometry = some g2)
    (habsent : ∀ u ∈ db.spatialUnits, u.id ≠ u1.id) :
    SpatialUnitRelationshipManager.create db gc newId args kw =
      Except.error
        (PyErr.spatialUnitRelationshipError containmentErrorMessage) := by
  have h0 : db.spatialUnits.filter (fun u => u.id == u1.id) = [] := by
    rw [List.filter_eq_nil_iff]
    intro a ha
    simp [habsent a ha]
  have hq : containmentQuery db gc u1.id g2 = [] := by
    simp [containmentQuery, h0]
  simp [SpatialUnitRelationshipManager.create, hsu1, hg1, hsu2, hg2, ht,
        hpoly, hq]

/-- C8 witness: against a database not containing `SU1`, the type-`C` call
fails even under the all-affirming oracle, under which the in-memory
polygon would contain the point. -/
theorem c8_checks_stored_rows_only_witness :
    gcAll polyGeom pointGeom = true ∧
    SpatialUnitRelationshipManager.create dbNoSU1 gcAll "R8" [] kwCPolyPoint =
      Except.error
        (PyErr.spatialUnitRelationshipError containmentErrorMessage) :=
  ⟨rfl, c8_checks_stored_rows_only dbNoSU1 gcAll "R8" [] kwCPolyPoint suPoly
    suPoint polyGeom pointGeom rfl rfl rfl rfl rfl rfl (by decide)⟩

/-- C9 counterexample: a call whose `su1` has NULL geometry and whose
`su2` keyword is missing does not raise a `KeyError` in the manager — the
short-circuited condition never reads `kwargs['su2']` — but falls through
to the underlying create, whose own foreign-key failure it surfaces. -/
theorem c9_counterexample :
    SpatialUnitRelationshipManager.create dbEx gcAll "R9" [] kwNoGeomMissingSu2 =
      superCreate dbEx "R9" kwNoGeomMissingSu2 ∧
    superCreate dbEx "R9" kwNoGeomMissingSu2 =
      Except.error PyErr.integrityError ∧
    PyErr.integrityError ≠ PyErr.keyError "su2" ∧
    PyErr.integrityError ≠ PyErr.keyError "su1" :=
  ⟨rfl, rfl, by decide, by decide⟩

/-- C9 (amended): `su1` is read unconditionally, so a call missing it
raises `KeyError "su1"`; `su2` is read only when `su1`'s geometry is
non-null — missing `su2` then raises `KeyError "su2"`, while with a NULL
`su1` geometry the call reaches the underlying create; `type` is read only
when both geometries are non-null — missing `type` then raises
`KeyError "type"`, while with a NULL geometry on either side the call
reaches the underlying create. -/
theorem c9_amended_kwargs_access
    (db : DB) (gc : Geometry → Geometry → Bool) (newId : String)
    (args : List Nat) (kw : Kwargs) :
    (kw.su1 = none →
      SpatialUnitRelationshipManager.create db gc newId args kw =
        Except.error (PyErr.keyError "su1")) ∧
    (∀ u1, kw.su1 = some u1 → u1.geometry = none →
      SpatialUnitRelationshipManager.create db gc newId args kw =
        superCreate db newId kw) ∧
    (∀ u1 g1, kw.su1 = some u1 → u1.geometry = some g1 → kw.su2 = none →
      SpatialUnitRelationshipManager.create db gc newId args kw =
        Except.error (PyErr.keyError "su2")) ∧
    (∀ u1 u2 g1 g2, kw.su1 = some u1 → u1.geometry = some g1 →
      kw.su2 = some u2 → u2.geometry = some g2 → kw.type = none →
      SpatialUnitRelationshipManager.create db gc newId args kw =
        Except.error (PyErr.keyError "type")) ∧
    (∀ u1 u2, kw.su1 = some u1 → kw.su2 = some u2 → kw.type = none →
      (u1.geometry = none ∨ u2.geometry = none) →
      SpatialUnitRelationshipManager.create db gc newId args kw =
        superCreate db newId kw) := by
  refine ⟨fun h1 => ?_, fun u1 h1 hg => ?_, fun u1 g1 h1 hg h2 => ?_,
          fun u1 u2 g1 g2 h1 hg1 h2 hg2 ht => ?_,
          fun u1 u2 h1 h2 ht hnull => ?_⟩
  · simp [SpatialUnitRelationshipManager.create, h1]
  · simp [SpatialUnitRelationshipManager.create, h1, hg]
  · simp [SpatialUnitRelationshipManager.create, h1, hg, h2]
  · simp [SpatialUnitRelationshipManager.create, h1, hg1, h2, hg2, ht]
  · cases hg1 : u1.geometry with
    | none => simp [SpatialUnitRelationshipManager.create, h1, hg1]
    | some g1 =>
        have hg2 : u2.geometry = none := by
          rcases hnull with h | h
          · rw [hg1] at h
            exact absurd h (by simp)
          · exact h
        simp [SpatialUnitRelationshipManager.create, h1, hg1, h2, hg2]

/-- C9 (amended) witness: with a polygon `su1` and `su2` missing, the
manager raises `KeyError "su2"`. -/
theorem c9_amended_kwargs_access_witness :
    SpatialUnitRelationshipManager.create dbEx gcAll "R9w" [] kwPolyMissingSu2 =
      Except.error (PyErr.keyError "su2") :=
  (c9_amended_kwargs_access dbEx gcAll "R9w" [] kwPolyMissingSu2).2.2.1
    suPoly polyGeom rfl rfl rfl

/-- C10: positional arguments are accepted but discarded: the outcome of
create is the same for any two positional-argument lists, all other inputs
equal. -/
theorem c10_positional_args_ignored
    (db : DB) (gc : Geometry → Geometry → Bool) (newId : String)
    (args args2 : List Nat) (kw : Kwargs) :
    SpatialUnitRelationshipManager.create db gc newId args kw =
      SpatialUnitRelationshipManager.create db gc newId args2 kw := rfl

end Cadasta
